import Mathlib

/-!
Shopmate: a shallow embedding of the inventory service.

This file embeds the Shopmate inventory-management service (an Express
application backed by a MySQL pool) into Lean 4 and proves the claimed
properties of its specification against this embedding.

Source layout:
* `src/app.js` — signup/login/refresh/logout routes and the `verifyToken`
  JWT middleware;
* `src/routes/posts.js` — inventory CRUD routes and the purchase route
  with its conditional stock decrement and transaction;
* `src/routes/db.js` — the MySQL connection pool (environment only).

Modelling conventions:
* SQL tables become Lean lists of rows inside `AppState`; a parameterised
  `SELECT ... WHERE ... LIMIT 1` becomes `List.find?`, a `DELETE ... WHERE`
  becomes `List.filter`, and the purchase route's single conditional
  `UPDATE` becomes one pure function (`atomicDecrement`) over the table.
* JWTs are modelled symbolically: a token carries its claims, the key that
  signed it, and its expiry instant; `jwt.verify` succeeds exactly when the
  key matches and the token is unexpired at the current time `now : Nat`
  (seconds).
* bcrypt is modelled as a deterministic tagging function: `bcrypt.compare`
  succeeds exactly when the stored string is the hash of the supplied
  plaintext.  Only the success/failure behaviour matters to the claims.
* JavaScript request-body values that the code tests for *falsiness*
  (`!id`, `!name`) are modelled by `JVal`, which distinguishes `undefined`,
  `null`, numbers, strings and booleans; fields the code only compares with
  `=== undefined` or uses numerically are modelled as `Option Int`.
* The purchase route's transaction is modelled by staging the decremented
  table and only installing it on commit; an injected failure of the
  record `INSERT` (the `insertFails` flag) takes the route's `catch` path,
  which rolls the transaction back, so the pre-call state is returned.
-/

/-- A JavaScript value as it appears in a JSON request body, as far as the
source code discriminates them.  `undef` models an absent field. -/
inductive JVal where
  | undef
  | jnull
  | jnum (n : Int)
  | jstr (s : String)
  | jbool (b : Bool)
deriving DecidableEq, Repr

/-- JavaScript falsiness of a `JVal`, as tested by `!x` in the source. -/
def JVal.falsy : JVal → Bool
  | .undef => true
  | .jnull => true
  | .jnum n => n = 0
  | .jstr s => s = ""
  | .jbool b => !b

/-- A user row of the `users` table (`id`, `username`, `password` holding
the bcrypt hash, `role`). -/
structure User where
  id : Nat
  username : String
  password : String
  role : String
deriving DecidableEq, Repr

/-- A symbolic JWT: its claims (`sub` is the `id` claim; access tokens also
carry a `role` claim, refresh tokens do not), the signing key and the
expiry instant. `jwt.verify` checks only the key and the expiry. -/
structure Token where
  sub : Nat
  role : Option String
  key : String
  exp : Nat
deriving DecidableEq, Repr

/-- A row of the `refresh_tokens` table: `user_id`, `token`, `expires_at`. -/
structure RefreshRow where
  userId : Nat
  token : Token
  expiresAt : Nat
deriving DecidableEq, Repr

/-- A row of the `inventory` table: `item_id`, `item_name`, `stock`,
`price` (nullable).  The id and name columns keep the raw body value the
`INSERT` received, since the code never converts them itself. -/
structure Item where
  itemId : JVal
  itemName : JVal
  stock : Int
  price : Option Int
deriving DecidableEq, Repr

/-- A row of the `purchases` table: `item_id`, `quantity`, `user_id`
(`null` when the request had no authenticated user). -/
structure PurchaseRow where
  itemId : Int
  quantity : Int
  userId : Option Nat
deriving DecidableEq, Repr

/-- The persistent state behind the MySQL pool: the four tables of §3 of
the specification. -/
structure AppState where
  users : List User
  refreshTokens : List RefreshRow
  inventory : List Item
  purchases : List PurchaseRow
deriving DecidableEq, Repr

/-- The `ACCESS_TOKEN` signing secret from the environment. -/
def ACCESS_TOKEN : String := "access-secret"

/-- The `REFRESH_TOKEN` signing secret from the environment. -/
def REFRESH_TOKEN : String := "refresh-secret"

/-- `jwt.sign(payload, key, expiresIn)`: mints a token with the given
claims, key, and expiry instant. -/
def jwtSign (sub : Nat) (role : Option String) (key : String) (exp : Nat) :
    Token :=
  ⟨sub, role, key, exp⟩

/-- `jwt.verify(token, key)` at instant `now`: succeeds with the claims
exactly when the token was signed with `key` and is unexpired; models the
thrown `JsonWebTokenError`/`TokenExpiredError` by `none`. -/
def jwtVerify (key : String) (now : Nat) (t : Token) :
    Option (Nat × Option String) :=
  if t.key = key ∧ now < t.exp then some (t.sub, t.role) else none

/-- bcrypt hashing at the source's fixed cost factor, modelled as an
injective tagging of the plaintext. -/
def bcryptHash (plain : String) : String :=
  "$2b$10$" ++ plain

/-- `bcrypt.compare(plain, stored)`: succeeds exactly when `stored` is the
hash of `plain`. -/
def bcryptCompare (plain stored : String) : Bool :=
  stored = bcryptHash plain

/-- Result of `POST /login`: either the minted access and refresh tokens
with the user's role, or an HTTP error status and message. -/
inductive LoginResult where
  | ok (accessToken refreshToken : Token) (role : String)
  | err (status : Nat) (msg : String)
deriving DecidableEq, Repr

/-- `POST /login` (src/app.js:52-81).  Missing or falsy credentials give
400; an unknown username or a failed `bcrypt.compare` both give
401 "Invalid username or password"; on success an access token (1 h) and a
refresh token (7 d) are minted and the refresh token is inserted into
`refresh_tokens`. -/
def login (st : AppState) (now : Nat) (username password : Option String) :
    LoginResult × AppState :=
  match username, password with
  | some u, some p =>
    if u = "" ∨ p = "" then
      (.err 400 "Username and password required", st)
    else
      match st.users.find? (fun r => r.username = u) with
      | none => (.err 401 "Invalid username or password", st)
      | some user =>
        if bcryptCompare p user.password then
          let refreshExp := now + 7 * 24 * 60 * 60
          let access := jwtSign user.id (some user.role) ACCESS_TOKEN
            (now + 60 * 60)
          let refresh := jwtSign user.id none REFRESH_TOKEN refreshExp
          (.ok access refresh user.role,
           { st with refreshTokens :=
              st.refreshTokens ++ [⟨user.id, refresh, refreshExp⟩] })
        else (.err 401 "Invalid username or password", st)
  | _, _ => (.err 400 "Username and password required", st)

/-- Result of `POST /refresh`: a fresh access token or an HTTP error. -/
inductive RefreshResult where
  | ok (accessToken : Token)
  | err (status : Nat) (msg : String)
deriving DecidableEq, Repr

/-- `POST /refresh` (src/app.js:84-107).  Verifies the refresh token's
signature and expiry (failure is caught and answered 403), looks up the
stored row matching `(user_id, token)` (absent gives 403), looks up the
user (absent gives 404), and on success mints a new access token only; the
store is never written. -/
def refreshAccess (st : AppState) (now : Nat) (token : Option Token) :
    RefreshResult × AppState :=
  match token with
  | none => (.err 401 "No refresh token provided", st)
  | some t =>
    match jwtVerify REFRESH_TOKEN now t with
    | none => (.err 403 "Invalid refresh token", st)
    | some (uid, _) =>
      match st.refreshTokens.find? (fun r => r.userId = uid ∧ r.token = t) with
      | none => (.err 403 "Invalid refresh token", st)
      | some _ =>
        match st.users.find? (fun u => u.id = uid) with
        | none => (.err 404 "User not found", st)
        | some user =>
          (.ok (jwtSign user.id (some user.role) ACCESS_TOKEN (now + 60 * 60)),
           st)

/-- `POST /logout` (src/app.js:110-121).  A missing token gives 400;
otherwise every `refresh_tokens` row whose `token` column matches is
deleted and 200 is returned, whether or not any row matched. -/
def revoke (st : AppState) (token : Option Token) :
    (Nat × String) × AppState :=
  match token with
  | none => ((400, "No refresh token provided"), st)
  | some t =>
    ((200, "Logged out successfully"),
     { st with refreshTokens :=
        st.refreshTokens.filter (fun r => r.token ≠ t) })

/-- The `verifyToken` JWT middleware (src/app.js:124-135).  A missing
`Authorization` header gives 401; a failed `jwt.verify` against the access
secret gives 403; success yields the token's claims as `req.user`.  The
function performs no pool query. -/
def verifyToken (now : Nat) (auth : Option Token) :
    Except (Nat × String) (Nat × Option String) :=
  match auth with
  | none => .error (401, "No token provided")
  | some t =>
    match jwtVerify ACCESS_TOKEN now t with
    | none => .error (403, "Invalid token")
    | some payload => .ok payload

/-- `verifyToken` as it actually runs inside the application: the pool
(`st : AppState`) is in scope in `src/app.js`, but the middleware body
reads only the header and the signing secret, so the state is passed and
ignored, exactly as the source does. -/
def verifyAccessStateful (st : AppState) (now : Nat) (auth : Option Token) :
    Except (Nat × String) (Nat × Option String) :=
  verifyToken now auth

/-- `GET /inventory/:id` (src/routes/posts.js:69-78), after
`validateIdParam` has parsed the path parameter to the positive integer
`itemId`: `SELECT * FROM inventory WHERE item_id = ?`; an empty result
gives 404, otherwise the first row is returned. -/
def getItem (st : AppState) (itemId : Int) : Except (Nat × String) Item :=
  match st.inventory.find? (fun it => it.itemId = JVal.jnum itemId) with
  | none => .error (404, "Item not found")
  | some it => .ok it

/-- The request body of `POST /inventory`, as destructured by the handler.
`id` and `name` are kept as raw JavaScript values because the code tests
them for falsiness; `stock` and `price` are the integers the schema
implies, `none` meaning the field is absent (`undefined`). -/
structure CreateBody where
  id : JVal
  name : JVal
  stock : Option Int
  price : Option Int
deriving DecidableEq, Repr

/-- `POST /inventory` (src/routes/posts.js:81-93), after `authorizeAdmin`.
`if (!id || !name || stock === undefined)` gives 400 "Missing fields" — a
falsy id or name is rejected even when present, while `stock` is only
compared against `undefined`, and `price` is never validated.  The
`INSERT` raises `ER_DUP_ENTRY`, answered 400, when an inventory row with
the same `item_id` exists; otherwise the row is appended. -/
def createItem (st : AppState) (body : CreateBody) :
    (Nat × String) × AppState :=
  if body.id.falsy ∨ body.name.falsy ∨ body.stock = none then
    ((400, "Missing fields"), st)
  else
    match body.stock with
    | none => ((400, "Missing fields"), st)
    | some stk =>
      if (st.inventory.find? (fun it => it.itemId = body.id)).isSome then
        ((400, "ID already exists"), st)
      else
        ((201, "Item added successfully"),
         { st with inventory :=
            st.inventory ++ [⟨body.id, body.name, stk, body.price⟩] })

/-- `PUT /inventory/:id` (src/routes/posts.js:96-108).  The handler
destructures only `{ name, stock }` from the body but passes an undefined
variable `price` to the query, and the statement itself is malformed SQL
(`SET item_name = ?, stock = ?, SET price = ?`), so evaluating the handler
body throws (a `ReferenceError` before the query is even issued), the
`catch` answers 500 "Database error", and no row is ever written. -/
def updateItem (st : AppState) (itemId : Int) (name : Option String)
    (stock : Option Int) : (Nat × String) × AppState :=
  ((500, "Database error"), st)

/-- `DELETE /inventory/:id` (src/routes/posts.js:111-122), after
`authorizeAdmin` and `validateIdParam`: selects the rows matching
`item_id`; an empty result gives 404, otherwise the matching rows are
deleted and the pre-delete first row is returned with 200. -/
def deleteItem (st : AppState) (itemId : Int) :
    Except (Nat × String) Item × AppState :=
  match st.inventory.find? (fun it => it.itemId = JVal.jnum itemId) with
  | none => (.error (404, "Item not found"), st)
  | some it =>
    (.ok it,
     { st with inventory :=
        st.inventory.filter (fun x => x.itemId ≠ JVal.jnum itemId) })

/-- The purchase route's conditional update
(`UPDATE inventory SET stock = stock - ? WHERE item_id = ? AND stock >= ?`,
src/routes/posts.js:135-138): one atomic storage operation that decrements
every row matching `item_id` whose stock is at least `quantity`, and
reports `affectedRows`.  `decrementRow` is its per-row effect. -/
def decrementRow (itemId quantity : Int) (it : Item) : Item :=
  if it.itemId = JVal.jnum itemId ∧ quantity ≤ it.stock then
    { it with stock := it.stock - quantity }
  else it

/-- The effect of the conditional `UPDATE` on the whole `inventory` table:
every matching row with sufficient stock is decremented in place, and
`affectedRows` is the number of such rows. -/
def atomicDecrement (inv : List Item) (itemId quantity : Int) :
    List Item × Nat :=
  (inv.map (decrementRow itemId quantity),
   (inv.filter (fun it =>
     it.itemId = JVal.jnum itemId ∧ quantity ≤ it.stock)).length)

/-- `POST /inventory/purchase/:id` (src/routes/posts.js:125-157), after
`authorizeUser` and `validateIdParam`.  `if (!quantity || quantity <= 0)`
gives 400 for an absent, zero or negative quantity.  Inside a transaction
the conditional update runs; if it affected no row the transaction is
rolled back and a re-read distinguishes 404 "Item not found" from
400 "Insufficient stock"; otherwise the purchase record is inserted and
the transaction commits.  `insertFails` injects a storage failure of the
record `INSERT`: the `catch` rolls the transaction back — including the
already-executed decrement — and answers 500 "Transaction failed". -/
def purchase (st : AppState) (itemId : Int) (quantity : Option Int)
    (userId : Option Nat) (insertFails : Bool) :
    (Nat × String) × AppState :=
  match quantity with
  | none => ((400, "Invalid quantity"), st)
  | some q =>
    if q ≤ 0 then ((400, "Invalid quantity"), st)
    else
      let staged := atomicDecrement st.inventory itemId q
      if staged.2 = 0 then
        match st.inventory.find? (fun it => it.itemId = JVal.jnum itemId) with
        | none => ((404, "Item not found"), st)
        | some _ => ((400, "Insufficient stock"), st)
      else if insertFails then
        ((500, "Transaction failed"), st)
      else
        ((200, "Purchase successful: " ++ toString q ++ " units of item " ++
          toString itemId),
         { st with inventory := staged.1,
                   purchases := st.purchases ++ [⟨itemId, q, userId⟩] })

/-- One purchase request: path id, body quantity, authenticated user id,
and whether the record `INSERT` fails. -/
structure PReq where
  itemId : Int
  quantity : Option Int
  userId : Option Nat
  insertFails : Bool
deriving DecidableEq, Repr

/-- Runs a sequence of purchase requests, threading the state. -/
def runPurchases (st : AppState) (reqs : List PReq) : AppState :=
  reqs.foldl (fun s r => (purchase s r.itemId r.quantity r.userId r.insertFails).2) st

/-- The stock column of the first inventory row matching `itemId`, as
`GET /inventory/:id` would report it. -/
def stockOf (st : AppState) (itemId : Int) : Option Int :=
  (st.inventory.find? (fun it => it.itemId = JVal.jnum itemId)).map (·.stock)

/-! Helper lemmas. -/

theorem decrementRow_itemId (i q : Int) (it : Item) :
    (decrementRow i q it).itemId = it.itemId := by
  unfold decrementRow
  split <;> rfl

theorem decrementRow_stock_nonneg (i q : Int) (it : Item)
    (h : 0 ≤ it.stock) : 0 ≤ (decrementRow i q it).stock := by
  unfold decrementRow
  split
  · next hc => exact sub_nonneg.mpr hc.2
  · exact h


theorem find?_map_decrementRow (inv : List Item) (i q j : Int) :
    (inv.map (decrementRow i q)).find?
        (fun it => it.itemId = JVal.jnum j)
      = (inv.find? (fun it => it.itemId = JVal.jnum j)).map
          (decrementRow i q) := by
  induction inv with
  | nil => rfl
  | cons hd tl ih =>
    by_cases h : hd.itemId = JVal.jnum j
    · simp [List.find?_cons, decrementRow_itemId, h]
    · simp [List.find?_cons, decrementRow_itemId, h, ih]

theorem purchase_state_cases (st : AppState) (i : Int) (q : Option Int)
    (u : Option Nat) (f : Bool) :
    (purchase st i q u f).2 = st ∨
    ∃ qv, q = some qv ∧ 0 < qv ∧ f = false ∧
      (purchase st i q u f).2
        = { st with inventory := (atomicDecrement st.inventory i qv).1,
                    purchases := st.purchases ++ [⟨i, qv, u⟩] } := by
  cases q with
  | none => exact Or.inl rfl
  | some qv =>
    by_cases hq : qv ≤ 0
    · exact Or.inl (by simp [purchase, hq])
    · by_cases hz : (atomicDecrement st.inventory i qv).2 = 0
      · left
        simp only [purchase, if_neg hq, hz, if_pos rfl]
        cases hfind : st.inventory.find?
            (fun it => it.itemId = JVal.jnum i) <;> simp [hfind]
      · cases f with
        | true => exact Or.inl (by simp [purchase, hq, hz])
        | false =>
          right
          exact ⟨qv, rfl, by omega, rfl, by simp [purchase, hq, hz]⟩

theorem purchase_preserves_nonneg (st : AppState) (i : Int) (q : Option Int)
    (u : Option Nat) (f : Bool) (h : ∀ it ∈ st.inventory, 0 ≤ it.stock) :
    ∀ it ∈ (purchase st i q u f).2.inventory, 0 ≤ it.stock := by
  rcases purchase_state_cases st i q u f with heq | ⟨qv, _, _, _, heq⟩
  · rw [heq]; exact h
  · rw [heq]
    intro it hit
    simp only [atomicDecrement, List.mem_map] at hit
    obtain ⟨x, hx, rfl⟩ := hit
    exact decrementRow_stock_nonneg i qv x (h x hx)

theorem runPurchases_preserves_nonneg (reqs : List PReq) (st : AppState)
    (h : ∀ it ∈ st.inventory, 0 ≤ it.stock) :
    ∀ it ∈ (runPurchases st reqs).inventory, 0 ≤ it.stock := by
  induction reqs generalizing st with
  | nil => exact h
  | cons r rs ih =>
    exact ih _ (purchase_preserves_nonneg st r.itemId r.quantity r.userId
      r.insertFails h)

theorem atomicDecrement_applies_iff (inv : List Item) (i q : Int) :
    (atomicDecrement inv i q).2 ≠ 0 ↔
      ∃ it ∈ inv, it.itemId = JVal.jnum i ∧ q ≤ it.stock := by
  simp only [atomicDecrement, ne_eq, List.length_eq_zero,
    List.filter_eq_nil_iff, decide_eq_true_eq, not_forall]
  constructor
  · rintro ⟨it, hit, hp⟩
    exact ⟨it, hit, not_not.mp hp⟩
  · rintro ⟨it, hit, hp⟩
    exact ⟨it, hit, not_not.mpr hp⟩

/-! Claims. -/

/-- Claim C1. The stock decrement of the purchase route is the single
conditional storage update `atomicDecrement`: it applies (affects at least
one row) exactly when some inventory row with the purchased `item_id` has
stock at least the purchased quantity, the surviving rows are precisely
the pointwise conditional decrement of the old table, and consequently no
sequence of purchase requests — whatever their quantities, ids, and
injected record-insert failures — ever drives any item's stock below
zero. -/
theorem c1_conditional_decrement_stock_never_negative :
    (∀ (inv : List Item) (i q : Int),
       ((atomicDecrement inv i q).2 ≠ 0 ↔
         ∃ it ∈ inv, it.itemId = JVal.jnum i ∧ q ≤ it.stock)) ∧
    (∀ (st : AppState) (reqs : List PReq),
       (∀ it ∈ st.inventory, 0 ≤ it.stock) →
       ∀ it ∈ (runPurchases st reqs).inventory, 0 ≤ it.stock) :=
  ⟨atomicDecrement_applies_iff,
   fun st reqs h => runPurchases_preserves_nonneg reqs st h⟩

/-- Claim C1 witness.  On a table holding item 1 with stock 5, a decrement
of 3 applies while a decrement of 9 does not, and a burst of purchase
requests (including over-large quantities and an injected record-insert
failure) leaves every stock non-negative. -/
theorem c1_conditional_decrement_stock_never_negative_witness :
    ((atomicDecrement [⟨JVal.jnum 1, JVal.jstr "Widget", 5, some 10⟩] 1 3).2 ≠ 0
      ↔ ∃ it ∈ [⟨JVal.jnum 1, JVal.jstr "Widget", 5, some 10⟩],
          Item.itemId it = JVal.jnum 1 ∧ (3 : Int) ≤ it.stock) ∧
    (∀ it ∈ (runPurchases
        ⟨[], [], [⟨JVal.jnum 1, JVal.jstr "Widget", 5, some 10⟩], []⟩
        [⟨1, some 2, some 7, false⟩, ⟨1, some 9, some 7, false⟩,
         ⟨1, some 2, some 7, true⟩, ⟨1, some 3, some 7, false⟩,
         ⟨2, some 4, none, false⟩]).inventory, 0 ≤ it.stock) :=
  ⟨c1_conditional_decrement_stock_never_negative.1
      [⟨JVal.jnum 1, JVal.jstr "Widget", 5, some 10⟩] 1 3,
   c1_conditional_decrement_stock_never_negative.2
      ⟨[], [], [⟨JVal.jnum 1, JVal.jstr "Widget", 5, some 10⟩], []⟩
      [⟨1, some 2, some 7, false⟩, ⟨1, some 9, some 7, false⟩,
       ⟨1, some 2, some 7, true⟩, ⟨1, some 3, some 7, false⟩,
       ⟨2, some 4, none, false⟩]
      (by decide)⟩

/-- Claim C2. The purchase transaction is all-or-nothing: when the purchase
record `INSERT` fails after the stock decrement has executed, the `catch`
branch rolls the transaction back, so the whole state — inventory and
purchase history included — is exactly what it was before the call, for
every starting state, item, quantity, and user. -/
theorem c2_purchase_rollback_all_or_nothing (st : AppState) (i : Int)
    (q : Option Int) (u : Option Nat) :
    (purchase st i q u true).2 = st := by
  cases q with
  | none => rfl
  | some qv =>
    by_cases hq : qv ≤ 0
    · simp [purchase, hq]
    · by_cases hz : (atomicDecrement st.inventory i qv).2 = 0
      · simp only [purchase, if_neg hq, hz, if_pos rfl]
        cases hfind : st.inventory.find?
            (fun it => it.itemId = JVal.jnum i) <;> simp [hfind]
      · simp [purchase, hq, hz]

/-- Claim C3. The purchase contract: an absent, zero or negative quantity is
rejected 400 "Invalid quantity" with no state change; when the conditional
decrement did not apply, a missing item answers 404 "Item not found" and an
existing item with insufficient stock answers 400 "Insufficient stock",
both with no side effects; and with sufficient stock the purchase succeeds
with 200, the item's stock decreases by exactly the purchased quantity,
every other item's stock is untouched, and exactly one purchase record is
appended. -/
theorem c3_purchase_error_and_success_contract :
    (∀ (st : AppState) (i : Int) (u : Option Nat) (f : Bool),
       purchase st i none u f = ((400, "Invalid quantity"), st)) ∧
    (∀ (st : AppState) (i : Int) (u : Option Nat) (f : Bool) (q : Int),
       q ≤ 0 → purchase st i (some q) u f = ((400, "Invalid quantity"), st)) ∧
    (∀ (st : AppState) (i : Int) (u : Option Nat) (f : Bool) (q : Int),
       0 < q →
       st.inventory.find? (fun it => it.itemId = JVal.jnum i) = none →
       purchase st i (some q) u f = ((404, "Item not found"), st)) ∧
    (∀ (st : AppState) (i : Int) (u : Option Nat) (f : Bool) (q : Int)
       (it0 : Item),
       0 < q →
       st.inventory.find? (fun it => it.itemId = JVal.jnum i) = some it0 →
       (∀ it ∈ st.inventory, it.itemId = JVal.jnum i → it.stock < q) →
       purchase st i (some q) u f = ((400, "Insufficient stock"), st)) ∧
    (∀ (st : AppState) (i : Int) (u : Option Nat) (q : Int) (it0 : Item),
       0 < q →
       st.inventory.find? (fun it => it.itemId = JVal.jnum i) = some it0 →
       q ≤ it0.stock →
       (purchase st i (some q) u false).1
           = (200, "Purchase successful: " ++ toString q ++ " units of item "
               ++ toString i) ∧
       stockOf (purchase st i (some q) u false).2 i = some (it0.stock - q) ∧
       (∀ j, j ≠ i →
          stockOf (purchase st i (some q) u false).2 j = stockOf st j) ∧
       (purchase st i (some q) u false).2.purchases
           = st.purchases ++ [⟨i, q, u⟩]) := by
  refine ⟨fun st i u f => rfl, ?_, ?_, ?_, ?_⟩
  · intro st i u f q hq
    simp [purchase, hq]
  · intro st i u f q hq hfind
    have hz : (atomicDecrement st.inventory i q).2 = 0 := by
      by_contra hne
      obtain ⟨it, hit, hp, _⟩ := (atomicDecrement_applies_iff _ _ _).mp hne
      have := List.find?_eq_none.mp hfind it hit
      simp only [decide_eq_true_eq] at this
      exact this hp
    simp [purchase, not_le.mpr hq, hz, hfind]
  · intro st i u f q it0 hq hfind hins
    have hz : (atomicDecrement st.inventory i q).2 = 0 := by
      by_contra hne
      obtain ⟨it, hit, hp, hstk⟩ := (atomicDecrement_applies_iff _ _ _).mp hne
      exact absurd hstk (not_le.mpr (hins it hit hp))
    simp [purchase, not_le.mpr hq, hz, hfind]
  · intro st i u q it0 hq hfind hstk
    have hmem := List.mem_of_find?_eq_some hfind
    have hp : it0.itemId = JVal.jnum i := by
      simpa using List.find?_some hfind
    have hne : (atomicDecrement st.inventory i q).2 ≠ 0 :=
      (atomicDecrement_applies_iff _ _ _).mpr ⟨it0, hmem, hp, hstk⟩
    have hpurch : purchase st i (some q) u false
        = ((200, "Purchase successful: " ++ toString q ++ " units of item "
             ++ toString i),
           { st with inventory := (atomicDecrement st.inventory i q).1,
                     purchases := st.purchases ++ [⟨i, q, u⟩] }) := by
      simp [purchase, not_le.mpr hq, hne]
    refine ⟨by rw [hpurch], ?_, ?_, by rw [hpurch]⟩
    · rw [hpurch]
      show ((((atomicDecrement st.inventory i q).1).find?
        (fun it => it.itemId = JVal.jnum i)).map (·.stock))
          = some (it0.stock - q)
      rw [show (atomicDecrement st.inventory i q).1
            = st.inventory.map (decrementRow i q) from rfl,
          find?_map_decrementRow, hfind]
      simp [decrementRow, hp, hstk]
    · intro j hji
      rw [hpurch]
      show ((((atomicDecrement st.inventory i q).1).find?
        (fun it => it.itemId = JVal.jnum j)).map (·.stock))
          = stockOf st j
      rw [show (atomicDecrement st.inventory i q).1
            = st.inventory.map (decrementRow i q) from rfl,
          find?_map_decrementRow]
      cases hfj : st.inventory.find? (fun it => it.itemId = JVal.jnum j) with
      | none => simp [stockOf, hfj]
      | some itj =>
        have hpj : itj.itemId = JVal.jnum j := by
          simpa using List.find?_some hfj
        have hnd : decrementRow i q itj = itj := by
          unfold decrementRow
          rw [if_neg]
          rintro ⟨hc, -⟩
          rw [hpj] at hc
          exact hji (by injection hc)
        simp [stockOf, hfj, hnd]

/-- Claim C3 witness.  On a store holding item 1 with stock 5: an absent and
a zero quantity are rejected 400 with the state untouched; purchasing item
2 answers 404; purchasing 9 units of item 1 answers 400
"Insufficient stock"; and purchasing 3 units succeeds with 200, leaves
item 1 with stock 2, leaves item 2 as absent as before, and appends the
one purchase record. -/
theorem c3_purchase_error_and_success_contract_witness :
    (purchase ⟨[], [], [⟨JVal.jnum 1, JVal.jstr "Widget", 5, some 10⟩], []⟩
        1 none (some 7) false
      = ((400, "Invalid quantity"),
         ⟨[], [], [⟨JVal.jnum 1, JVal.jstr "Widget", 5, some 10⟩], []⟩)) ∧
    (purchase ⟨[], [], [⟨JVal.jnum 1, JVal.jstr "Widget", 5, some 10⟩], []⟩
        1 (some 0) (some 7) false
      = ((400, "Invalid quantity"),
         ⟨[], [], [⟨JVal.jnum 1, JVal.jstr "Widget", 5, some 10⟩], []⟩)) ∧
    (purchase ⟨[], [], [⟨JVal.jnum 1, JVal.jstr "Widget", 5, some 10⟩], []⟩
        2 (some 3) (some 7) false
      = ((404, "Item not found"),
         ⟨[], [], [⟨JVal.jnum 1, JVal.jstr "Widget", 5, some 10⟩], []⟩)) ∧
    (purchase ⟨[], [], [⟨JVal.jnum 1, JVal.jstr "Widget", 5, some 10⟩], []⟩
        1 (some 9) (some 7) false
      = ((400, "Insufficient stock"),
         ⟨[], [], [⟨JVal.jnum 1, JVal.jstr "Widget", 5, some 10⟩], []⟩)) ∧
    ((purchase ⟨[], [], [⟨JVal.jnum 1, JVal.jstr "Widget", 5, some 10⟩], []⟩
        1 (some 3) (some 7) false).1
      = (200, "Purchase successful: " ++ toString (3 : Int)
          ++ " units of item " ++ toString (1 : Int))) ∧
    (stockOf (purchase
        ⟨[], [], [⟨JVal.jnum 1, JVal.jstr "Widget", 5, some 10⟩], []⟩
        1 (some 3) (some 7) false).2 1 = some 2) ∧
    (stockOf (purchase
        ⟨[], [], [⟨JVal.jnum 1, JVal.jstr "Widget", 5, some 10⟩], []⟩
        1 (some 3) (some 7) false).2 2
      = stockOf ⟨[], [], [⟨JVal.jnum 1, JVal.jstr "Widget", 5, some 10⟩], []⟩ 2) ∧
    ((purchase ⟨[], [], [⟨JVal.jnum 1, JVal.jstr "Widget", 5, some 10⟩], []⟩
        1 (some 3) (some 7) false).2.purchases = [⟨1, 3, some 7⟩]) :=
  ⟨c3_purchase_error_and_success_contract.1 _ 1 (some 7) false,
   c3_purchase_error_and_success_contract.2.1 _ 1 (some 7) false 0 (by decide),
   c3_purchase_error_and_success_contract.2.2.1 _ 2 (some 7) false 3
     (by decide) (by decide),
   c3_purchase_error_and_success_contract.2.2.2.1 _ 1 (some 7) false 9
     ⟨JVal.jnum 1, JVal.jstr "Widget", 5, some 10⟩ (by decide) (by decide)
     (by decide),
   (c3_purchase_error_and_success_contract.2.2.2.2 _ 1 (some 7) 3
     ⟨JVal.jnum 1, JVal.jstr "Widget", 5, some 10⟩ (by decide) (by decide)
     (by decide)).1,
   by
     have h := (c3_purchase_error_and_success_contract.2.2.2.2
       ⟨[], [], [⟨JVal.jnum 1, JVal.jstr "Widget", 5, some 10⟩], []⟩ 1
       (some 7) 3 ⟨JVal.jnum 1, JVal.jstr "Widget", 5, some 10⟩ (by decide)
       (by decide) (by decide)).2.1
     simpa using h,
   (c3_purchase_error_and_success_contract.2.2.2.2 _ 1 (some 7) 3
     ⟨JVal.jnum 1, JVal.jstr "Widget", 5, some 10⟩ (by decide) (by decide)
     (by decide)).2.2.1 2 (by decide),
   by
     have h := (c3_purchase_error_and_success_contract.2.2.2.2
       ⟨[], [], [⟨JVal.jnum 1, JVal.jstr "Widget", 5, some 10⟩], []⟩ 1
       (some 7) 3 ⟨JVal.jnum 1, JVal.jstr "Widget", 5, some 10⟩ (by decide)
       (by decide) (by decide)).2.2.2
     simpa using h⟩

/-- Claim C4, a source defect.  Evaluating the item-update route at a state
holding item 1: the handler references the undefined variable `price` and
issues a malformed double-`SET` statement, so the call answers
500 "Database error" and the row keeps its old name, stock, and price —
it never behaves as the claimed replace-and-return contract. -/
theorem c4_update_item_always_database_error :
    updateItem ⟨[], [], [⟨JVal.jnum 1, JVal.jstr "Widget", 5, some 10⟩], []⟩
        1 (some "Gadget") (some 9)
      = ((500, "Database error"),
         ⟨[], [], [⟨JVal.jnum 1, JVal.jstr "Widget", 5, some 10⟩], []⟩) ∧
    getItem (updateItem
        ⟨[], [], [⟨JVal.jnum 1, JVal.jstr "Widget", 5, some 10⟩], []⟩
        1 (some "Gadget") (some 9)).2 1
      = .ok ⟨JVal.jnum 1, JVal.jstr "Widget", 5, some 10⟩ :=
  ⟨rfl, rfl⟩

theorem refreshAccess_no_matching_row (st : AppState) (now : Nat) (t : Token)
    (hkey : t.key = REFRESH_TOKEN) (hexp : now < t.exp)
    (hfind : st.refreshTokens.find?
        (fun r => r.userId = t.sub ∧ r.token = t) = none) :
    refreshAccess st now (some t) = (.err 403 "Invalid refresh token", st) := by
  have hfind' : st.refreshTokens.find?
      (fun r => decide (r.userId = t.sub) && decide (r.token = t)) = none := by
    simpa using hfind
  simp [refreshAccess, jwtVerify, hkey, hexp, hfind']

/-- Claim C5. `POST /refresh` on a refresh token with valid signature and
expiry: if no stored row matches `(userId, token)` it fails 403 — in
particular immediately after that token has been revoked via
`POST /logout` — if the row exists but the referenced user does not it
fails 404, and on success it returns a newly minted access token only,
with the state (the stored refresh token included) completely
unchanged. -/
theorem c5_refresh_access_contract :
    (∀ (st : AppState) (now : Nat) (t : Token),
       t.key = REFRESH_TOKEN → now < t.exp →
       st.refreshTokens.find?
           (fun r => r.userId = t.sub ∧ r.token = t) = none →
       refreshAccess st now (some t)
         = (.err 403 "Invalid refresh token", st)) ∧
    (∀ (st : AppState) (now : Nat) (t : Token),
       t.key = REFRESH_TOKEN → now < t.exp →
       refreshAccess (revoke st (some t)).2 now (some t)
         = (.err 403 "Invalid refresh token", (revoke st (some t)).2)) ∧
    (∀ (st : AppState) (now : Nat) (t : Token) (row : RefreshRow),
       t.key = REFRESH_TOKEN → now < t.exp →
       st.refreshTokens.find?
           (fun r => r.userId = t.sub ∧ r.token = t) = some row →
       st.users.find? (fun u => u.id = t.sub) = none →
       refreshAccess st now (some t) = (.err 404 "User not found", st)) ∧
    (∀ (st : AppState) (now : Nat) (t : Token) (row : RefreshRow)
       (user : User),
       t.key = REFRESH_TOKEN → now < t.exp →
       st.refreshTokens.find?
           (fun r => r.userId = t.sub ∧ r.token = t) = some row →
       st.users.find? (fun u => u.id = t.sub) = some user →
       refreshAccess st now (some t)
         = (.ok (jwtSign user.id (some user.role) ACCESS_TOKEN (now + 60 * 60)),
            st)) := by
  refine ⟨refreshAccess_no_matching_row, ?_, ?_, ?_⟩
  · intro st now t hkey hexp
    apply refreshAccess_no_matching_row _ _ _ hkey hexp
    rw [List.find?_eq_none]
    intro x hx
    have hxt : x.token ≠ t := by
      have hmem : x ∈ st.refreshTokens.filter (fun r => r.token ≠ t) := hx
      simpa using (List.mem_filter.mp hmem).2
    simp [hxt]
  · intro st now t row hkey hexp hfind huser
    have hfind' : st.refreshTokens.find?
        (fun r => decide (r.userId = t.sub) && decide (r.token = t))
          = some row := by
      simpa using hfind
    simp [refreshAccess, jwtVerify, hkey, hexp, hfind', huser]
  · intro st now t row user hkey hexp hfind huser
    have hfind' : st.refreshTokens.find?
        (fun r => decide (r.userId = t.sub) && decide (r.token = t))
          = some row := by
      simpa using hfind
    simp [refreshAccess, jwtVerify, hkey, hexp, hfind', huser]

/-- Claim C5 witness.  A concrete unexpired refresh token for user 1: with
an empty token store refresh fails 403; after revoking the stored token it
fails 403; with the row present but no user it fails 404; with both
present it returns exactly one fresh access token and the identical
state. -/
theorem c5_refresh_access_contract_witness :
    (refreshAccess ⟨[⟨1, "alice", bcryptHash "pw1", "user"⟩], [], [], []⟩ 0
        (some ⟨1, none, REFRESH_TOKEN, 604800⟩)
      = (.err 403 "Invalid refresh token",
         ⟨[⟨1, "alice", bcryptHash "pw1", "user"⟩], [], [], []⟩)) ∧
    (refreshAccess
        (revoke ⟨[⟨1, "alice", bcryptHash "pw1", "user"⟩],
          [⟨1, ⟨1, none, REFRESH_TOKEN, 604800⟩, 604800⟩], [], []⟩
          (some ⟨1, none, REFRESH_TOKEN, 604800⟩)).2 0
        (some ⟨1, none, REFRESH_TOKEN, 604800⟩)
      = (.err 403 "Invalid refresh token",
         (revoke ⟨[⟨1, "alice", bcryptHash "pw1", "user"⟩],
           [⟨1, ⟨1, none, REFRESH_TOKEN, 604800⟩, 604800⟩], [], []⟩
           (some ⟨1, none, REFRESH_TOKEN, 604800⟩)).2)) ∧
    (refreshAccess
        ⟨[], [⟨1, ⟨1, none, REFRESH_TOKEN, 604800⟩, 604800⟩], [], []⟩ 0
        (some ⟨1, none, REFRESH_TOKEN, 604800⟩)
      = (.err 404 "User not found",
         ⟨[], [⟨1, ⟨1, none, REFRESH_TOKEN, 604800⟩, 604800⟩], [], []⟩)) ∧
    (refreshAccess
        ⟨[⟨1, "alice", bcryptHash "pw1", "user"⟩],
         [⟨1, ⟨1, none, REFRESH_TOKEN, 604800⟩, 604800⟩], [], []⟩ 0
        (some ⟨1, none, REFRESH_TOKEN, 604800⟩)
      = (.ok (jwtSign 1 (some "user") ACCESS_TOKEN (0 + 60 * 60)),
         ⟨[⟨1, "alice", bcryptHash "pw1", "user"⟩],
          [⟨1, ⟨1, none, REFRESH_TOKEN, 604800⟩, 604800⟩], [], []⟩)) :=
  ⟨c5_refresh_access_contract.1 _ 0 _ rfl (by decide) (by decide),
   c5_refresh_access_contract.2.1 _ 0 _ rfl (by decide),
   c5_refresh_access_contract.2.2.1 _ 0 _
     ⟨1, ⟨1, none, REFRESH_TOKEN, 604800⟩, 604800⟩ rfl (by decide)
     (by decide) (by decide),
   c5_refresh_access_contract.2.2.2 _ 0 _
     ⟨1, ⟨1, none, REFRESH_TOKEN, 604800⟩, 604800⟩
     ⟨1, "alice", bcryptHash "pw1", "user"⟩ rfl (by decide) (by decide)
     (by decide)⟩

/-- Claim C6. Access-token verification is stateless: the `verifyToken`
middleware performs no store lookup, so its outcome is the same over any
two states, is untouched by any refresh-token revocation, and an access
token that verifies successfully still does so after its session's
refresh token has been revoked. -/
theorem c6_verify_access_stateless :
    (∀ (s1 s2 : AppState) (now : Nat) (auth : Option Token),
       verifyAccessStateful s1 now auth = verifyAccessStateful s2 now auth) ∧
    (∀ (st : AppState) (rt : Token) (now : Nat) (auth : Option Token),
       verifyAccessStateful (revoke st (some rt)).2 now auth
         = verifyAccessStateful st now auth) ∧
    (∀ (st : AppState) (rt t : Token) (now : Nat)
       (payload : Nat × Option String),
       verifyToken now (some t) = .ok payload →
       verifyAccessStateful (revoke st (some rt)).2 now (some t)
         = .ok payload) :=
  ⟨fun _ _ _ _ => rfl, fun _ _ _ _ => rfl, fun _ _ _ _ _ h => h⟩

/-- Claim C6 witness.  An unexpired access token for user 1 still verifies
successfully against the state in which the session's refresh token has
just been revoked. -/
theorem c6_verify_access_stateless_witness :
    verifyAccessStateful
        (revoke ⟨[], [⟨1, ⟨1, none, REFRESH_TOKEN, 604800⟩, 604800⟩], [], []⟩
          (some ⟨1, none, REFRESH_TOKEN, 604800⟩)).2
        0 (some ⟨1, some "user", ACCESS_TOKEN, 3600⟩)
      = .ok (1, some "user") :=
  c6_verify_access_stateless.2.2 _ _ _ 0 (1, some "user") rfl

/-- Claim C7. Failed logins are externally indistinguishable: a login
attempt against an unknown username and one against a known username with
a wrong password produce the very same response — status 401, message
"Invalid username or password" — and both leave the state unchanged. -/
theorem c7_login_failures_indistinguishable :
    (∀ (st : AppState) (now : Nat) (u p : String),
       u ≠ "" → p ≠ "" →
       st.users.find? (fun r => r.username = u) = none →
       login st now (some u) (some p)
         = (.err 401 "Invalid username or password", st)) ∧
    (∀ (st : AppState) (now : Nat) (u p : String) (user : User),
       u ≠ "" → p ≠ "" →
       st.users.find? (fun r => r.username = u) = some user →
       bcryptCompare p user.password = false →
       login st now (some u) (some p)
         = (.err 401 "Invalid username or password", st)) := by
  constructor
  · intro st now u p hu hp hfind
    simp [login, hu, hp, hfind]
  · intro st now u p user hu hp hfind hcmp
    simp [login, hu, hp, hfind, hcmp]

/-- Claim C7 witness.  Against a store holding only user "alice": logging in
as the unknown "bob" and logging in as "alice" with a wrong password give
the identical 401 response. -/
theorem c7_login_failures_indistinguishable_witness :
    (login ⟨[⟨1, "alice", bcryptHash "pw1", "user"⟩], [], [], []⟩ 0
        (some "bob") (some "pw1")
      = (.err 401 "Invalid username or password",
         ⟨[⟨1, "alice", bcryptHash "pw1", "user"⟩], [], [], []⟩)) ∧
    (login ⟨[⟨1, "alice", bcryptHash "pw1", "user"⟩], [], [], []⟩ 0
        (some "alice") (some "wrong")
      = (.err 401 "Invalid username or password",
         ⟨[⟨1, "alice", bcryptHash "pw1", "user"⟩], [], [], []⟩)) :=
  ⟨c7_login_failures_indistinguishable.1 _ 0 "bob" "pw1" (by decide)
     (by decide) (by decide),
   c7_login_failures_indistinguishable.2 _ 0 "alice" "wrong"
     ⟨1, "alice", bcryptHash "pw1", "user"⟩ (by decide) (by decide)
     (by decide) (by decide)⟩

/-- Claim C8. `POST /logout` (revoke) deletes the stored row matching the
token and is idempotent: it always answers 200 "Logged out successfully";
after the call no stored row bearing the revoked token remains, while
every row bearing a different token survives, so exactly the matching
rows are deleted; revoking a token with no stored row leaves the store
exactly as it was; and revoking the same token twice returns the same
response and the same final state as revoking it once. -/
theorem c8_revoke_idempotent :
    (∀ (st : AppState) (t : Token),
       (revoke st (some t)).1 = (200, "Logged out successfully")) ∧
    (∀ (st : AppState) (t : Token),
       ∀ r ∈ (revoke st (some t)).2.refreshTokens, r.token ≠ t) ∧
    (∀ (st : AppState) (t : Token) (r : RefreshRow),
       r ∈ st.refreshTokens → r.token ≠ t →
       r ∈ (revoke st (some t)).2.refreshTokens) ∧
    (∀ (st : AppState) (t : Token),
       (∀ r ∈ st.refreshTokens, r.token ≠ t) →
       revoke st (some t) = ((200, "Logged out successfully"), st)) ∧
    (∀ (st : AppState) (t : Token),
       revoke (revoke st (some t)).2 (some t) = revoke st (some t)) := by
  refine ⟨fun st t => rfl, ?_, ?_, ?_, ?_⟩
  · intro st t r hr
    have hr' : r ∈ st.refreshTokens.filter (fun x => x.token ≠ t) := hr
    simpa using (List.mem_filter.mp hr').2
  · intro st t r hr hrt
    show r ∈ st.refreshTokens.filter (fun x => x.token ≠ t)
    exact List.mem_filter.mpr ⟨hr, by simpa using hrt⟩
  · intro st t h
    have hf : st.refreshTokens.filter (fun r => r.token ≠ t)
        = st.refreshTokens :=
      List.filter_eq_self.mpr (fun a ha => by simpa using h a ha)
    simp only [revoke, hf]
  · intro st t
    have hf : (st.refreshTokens.filter (fun r => r.token ≠ t)).filter
        (fun r => r.token ≠ t)
        = st.refreshTokens.filter (fun r => r.token ≠ t) :=
      List.filter_eq_self.mpr (fun a ha => (List.mem_filter.mp ha).2)
    simp only [revoke, hf]

/-- Claim C8 witness.  With a store holding refresh tokens for users 1
and 2: revoking user 1's token leaves no row bearing that token while user
2's row survives the deletion; revoking a different, never-issued token
answers 200 and leaves the store untouched; and revoking the stored token
twice equals revoking it once. -/
theorem c8_revoke_idempotent_witness :
    (∀ r ∈ (revoke ⟨[], [⟨1, ⟨1, none, REFRESH_TOKEN, 604800⟩, 604800⟩,
          ⟨2, ⟨2, none, REFRESH_TOKEN, 777⟩, 777⟩], [], []⟩
        (some ⟨1, none, REFRESH_TOKEN, 604800⟩)).2.refreshTokens,
       r.token ≠ ⟨1, none, REFRESH_TOKEN, 604800⟩) ∧
    ((⟨2, ⟨2, none, REFRESH_TOKEN, 777⟩, 777⟩ : RefreshRow)
      ∈ (revoke ⟨[], [⟨1, ⟨1, none, REFRESH_TOKEN, 604800⟩, 604800⟩,
          ⟨2, ⟨2, none, REFRESH_TOKEN, 777⟩, 777⟩], [], []⟩
        (some ⟨1, none, REFRESH_TOKEN, 604800⟩)).2.refreshTokens) ∧
    (revoke ⟨[], [⟨1, ⟨1, none, REFRESH_TOKEN, 604800⟩, 604800⟩], [], []⟩
        (some ⟨2, none, REFRESH_TOKEN, 99⟩)
      = ((200, "Logged out successfully"),
         ⟨[], [⟨1, ⟨1, none, REFRESH_TOKEN, 604800⟩, 604800⟩], [], []⟩)) ∧
    (revoke (revoke
        ⟨[], [⟨1, ⟨1, none, REFRESH_TOKEN, 604800⟩, 604800⟩], [], []⟩
        (some ⟨1, none, REFRESH_TOKEN, 604800⟩)).2
        (some ⟨1, none, REFRESH_TOKEN, 604800⟩)
      = revoke ⟨[], [⟨1, ⟨1, none, REFRESH_TOKEN, 604800⟩, 604800⟩], [], []⟩
          (some ⟨1, none, REFRESH_TOKEN, 604800⟩)) :=
  ⟨c8_revoke_idempotent.2.1 _ _,
   c8_revoke_idempotent.2.2.1 _ _ ⟨2, ⟨2, none, REFRESH_TOKEN, 777⟩, 777⟩
     (by decide) (by decide),
   c8_revoke_idempotent.2.2.2.1 _ _ (by decide),
   c8_revoke_idempotent.2.2.2.2 _ _⟩

/-- Claim C9, a source defect.  The inventory round-trip scenario evaluated
on the code: creating item 7 and reading it back returns the created
fields; the subsequent update attempt answers 500 "Database error" (the
handler's undefined `price` variable and malformed double-`SET`
statement), after which `get` still returns the *original* fields, so the
claimed update-then-get round-trip can never be exercised; deleting the
item and reading it back answers 404. -/
theorem c9_roundtrip_blocked_by_update_defect :
    ((createItem ⟨[], [], [], []⟩
        ⟨JVal.jnum 7, JVal.jstr "Gizmo", some 4, some 10⟩).1
      = (201, "Item added successfully")) ∧
    (getItem (createItem ⟨[], [], [], []⟩
        ⟨JVal.jnum 7, JVal.jstr "Gizmo", some 4, some 10⟩).2 7
      = .ok ⟨JVal.jnum 7, JVal.jstr "Gizmo", 4, some 10⟩) ∧
    ((updateItem (createItem ⟨[], [], [], []⟩
        ⟨JVal.jnum 7, JVal.jstr "Gizmo", some 4, some 10⟩).2
        7 (some "New") (some 9)).1 = (500, "Database error")) ∧
    (getItem (updateItem (createItem ⟨[], [], [], []⟩
        ⟨JVal.jnum 7, JVal.jstr "Gizmo", some 4, some 10⟩).2
        7 (some "New") (some 9)).2 7
      = .ok ⟨JVal.jnum 7, JVal.jstr "Gizmo", 4, some 10⟩) ∧
    (getItem (deleteItem (createItem ⟨[], [], [], []⟩
        ⟨JVal.jnum 7, JVal.jstr "Gizmo", some 4, some 10⟩).2 7).2 7
      = .error (404, "Item not found")) :=
  ⟨rfl, rfl, rfl, rfl, rfl⟩

/-- Claim C10. The create route's validation is asymmetric: `stock` is
compared with `=== undefined` only, so a present `stock = 0` is accepted
and the item is created with stock 0; a falsy `id` — the number 0, the
empty string, or an absent field — and a falsy `name` — the empty string
or an absent field — are rejected 400 "Missing fields" even when present;
and `price` is never validated, an absent price included. -/
theorem c10_create_validation_asymmetry :
    (∀ (st : AppState) (i : Int) (nm : String) (price : Option Int),
       i ≠ 0 → nm ≠ "" →
       st.inventory.find? (fun it => it.itemId = JVal.jnum i) = none →
       createItem st ⟨JVal.jnum i, JVal.jstr nm, some 0, price⟩
         = ((201, "Item added successfully"),
            { st with inventory :=
               st.inventory ++ [⟨JVal.jnum i, JVal.jstr nm, 0, price⟩] })) ∧
    (∀ (st : AppState) (nm : JVal) (stk price : Option Int),
       createItem st ⟨JVal.jnum 0, nm, stk, price⟩
         = ((400, "Missing fields"), st)) ∧
    (∀ (st : AppState) (nm : JVal) (stk price : Option Int),
       createItem st ⟨JVal.jstr "", nm, stk, price⟩
         = ((400, "Missing fields"), st)) ∧
    (∀ (st : AppState) (nm : JVal) (stk price : Option Int),
       createItem st ⟨JVal.undef, nm, stk, price⟩
         = ((400, "Missing fields"), st)) ∧
    (∀ (st : AppState) (i : JVal) (stk price : Option Int),
       createItem st ⟨i, JVal.jstr "", stk, price⟩
         = ((400, "Missing fields"), st)) ∧
    (∀ (st : AppState) (i : JVal) (stk price : Option Int),
       createItem st ⟨i, JVal.undef, stk, price⟩
         = ((400, "Missing fields"), st)) ∧
    (∀ (st : AppState) (i nm : JVal) (price : Option Int),
       createItem st ⟨i, nm, none, price⟩
         = ((400, "Missing fields"), st)) := by
  refine ⟨?_, ?_, ?_, ?_, ?_, ?_, ?_⟩
  · intro st i nm price hi hnm hfind
    simp [createItem, JVal.falsy, hi, hnm, hfind]
  · intro st nm stk price
    simp [createItem, JVal.falsy]
  · intro st nm stk price
    simp [createItem, JVal.falsy]
  · intro st nm stk price
    simp [createItem, JVal.falsy]
  · intro st i stk price
    simp [createItem, JVal.falsy]
  · intro st i stk price
    simp [createItem, JVal.falsy]
  · intro st i nm price
    simp [createItem]

/-- Claim C10 witness.  On an empty inventory: creating item 3 with
`stock = 0` and no price succeeds and stores stock 0; a present `id = 0`,
a present `id = ""`, a present `name = ""`, and an absent `stock` are all
rejected with 400 "Missing fields". -/
theorem c10_create_validation_asymmetry_witness :
    (createItem ⟨[], [], [], []⟩ ⟨JVal.jnum 3, JVal.jstr "Zero", some 0, none⟩
      = ((201, "Item added successfully"),
         ⟨[], [], [⟨JVal.jnum 3, JVal.jstr "Zero", 0, none⟩], []⟩)) ∧
    (createItem ⟨[], [], [], []⟩ ⟨JVal.jnum 0, JVal.jstr "A", some 5, some 2⟩
      = ((400, "Missing fields"), ⟨[], [], [], []⟩)) ∧
    (createItem ⟨[], [], [], []⟩ ⟨JVal.jstr "", JVal.jstr "A", some 5, some 2⟩
      = ((400, "Missing fields"), ⟨[], [], [], []⟩)) ∧
    (createItem ⟨[], [], [], []⟩ ⟨JVal.jnum 9, JVal.jstr "", some 5, some 2⟩
      = ((400, "Missing fields"), ⟨[], [], [], []⟩)) ∧
    (createItem ⟨[], [], [], []⟩ ⟨JVal.jnum 9, JVal.jstr "A", none, some 2⟩
      = ((400, "Missing fields"), ⟨[], [], [], []⟩)) :=
  ⟨c10_create_validation_asymmetry.1 _ 3 "Zero" none (by decide) (by decide)
     (by decide),
   c10_create_validation_asymmetry.2.1 _ (JVal.jstr "A") (some 5) (some 2),
   c10_create_validation_asymmetry.2.2.1 _ (JVal.jstr "A") (some 5) (some 2),
   c10_create_validation_asymmetry.2.2.2.2.1 _ (JVal.jnum 9) (some 5)
     (some 2),
   c10_create_validation_asymmetry.2.2.2.2.2.2 _ (JVal.jnum 9)
     (JVal.jstr "A") (some 2)⟩
